import Mathlib

/-!
Verification of the tic-tac-toe client (`src/context/GameContext.tsx`,
`src/services/socketService.ts`, `src/pages/Index.tsx`).

The offline-mode game logic, the socket-service connection sequencing and the
session teardown are embedded shallowly: pure state-transition functions over
explicit state records, with the asynchronous environment (socket outcomes,
timers, generated ids, clock readings) passed in as parameters.
-/

namespace TicTacToe

/-- A mark on the board: `currentTurn` in the source is `"X" | "O"`. -/
inductive Player where
  | X : Player
  | O : Player
deriving DecidableEq, Repr, Fintype

/-- Turn flipping, `gameState.currentTurn === "X" ? "O" : "X"` in `makeMove`. -/
def Player.other : Player → Player
  | .X => .O
  | .O => .X

/-- The `players` field of `GameState`: `{ X: string | null, O: string | null }`. -/
structure Players where
  X : Option String
  O : Option String
deriving DecidableEq, Repr

/-- Indexing `gameState.players[mark]`. -/
def Players.get (ps : Players) : Player → Option String
  | .X => ps.X
  | .O => ps.O

/-- The `GameState` interface of `socketService.ts`; a board cell
`string | null` only ever holds one of the two marks. -/
structure GameState where
  board : List (Option Player)
  currentTurn : Player
  gameOver : Bool
  winner : Option String
  winningCombination : Option (List Nat)
  players : Players
deriving DecidableEq, Repr

/-- The constant `initialGameState` from `GameContext.tsx`: `Array(9).fill(null)`, turn X,
no winner, empty player slots. -/
def initialGameState : GameState :=
  { board := List.replicate 9 none
    currentTurn := .X
    gameOver := false
    winner := none
    winningCombination := none
    players := ⟨none, none⟩ }

/-- The eight fixed `lines` of `checkWinner`, in source order:
three rows, three columns, two diagonals. -/
def lines : List (Nat × Nat × Nat) :=
  [(0, 1, 2), (3, 4, 5), (6, 7, 8),
   (0, 3, 6), (1, 4, 7), (2, 5, 8),
   (0, 4, 8), (2, 4, 6)]

/-- Cell lookup `board[i]`: JavaScript indexing, `undefined` out of range behaves as
an empty cell. -/
def cellAt (board : List (Option Player)) (i : Nat) : Option Player :=
  board.getD i none

/-- The body of the loop test of `checkWinner` for one line:
`board[a] && board[a] === board[b] && board[a] === board[c]`. -/
def lineWin (board : List (Option Player)) (l : Nat × Nat × Nat) : Bool :=
  match cellAt board l.1 with
  | some m => (cellAt board l.2.1 == some m) && (cellAt board l.2.2 == some m)
  | none => false

/-- The function `checkWinner`: returns the first of the eight `lines` whose three cells
hold the same mark, as the array `[a, b, c]`, else `null`. -/
def checkWinner (board : List (Option Player)) : Option (List Nat) :=
  match lines.find? (lineWin board) with
  | some (a, b, c) => some [a, b, c]
  | none => none

/-- The offline-mode branch of `makeMove` in `GameContext.tsx`: reject when the
cell is occupied or the game is over; otherwise place the current mark, flip
the turn, and recompute `gameOver`, `winner`, `winningCombination` from
`checkWinner` and the draw test `newBoard.every(cell => cell !== null)`. -/
def makeMove (gs : GameState) (index : Nat) : GameState :=
  if (cellAt gs.board index).isSome || gs.gameOver then gs
  else
    let newBoard := gs.board.set index (some gs.currentTurn)
    let winner := checkWinner newBoard
    let isDraw := winner.isNone && newBoard.all Option.isSome
    { gs with
      board := newBoard
      currentTurn := gs.currentTurn.other
      gameOver := winner.isSome || isDraw
      winner := if winner.isSome then gs.players.get gs.currentTurn else none
      winningCombination := winner }

/-- Applying a sequence of offline moves in order, each via `makeMove`. -/
def applyMoves (gs : GameState) (moves : List (Fin 9)) : GameState :=
  moves.foldl (fun s i => makeMove s i.val) gs

/-- One of the eight positions of a line is a triple of cells all holding the
same mark (in the words of the spec, "fully occupied by one mark"). -/
def LineFilledByOneMark (board : List (Option Player)) (l : Nat × Nat × Nat) : Prop :=
  ∃ m : Player, cellAt board l.1 = some m ∧ cellAt board l.2.1 = some m ∧
    cellAt board l.2.2 = some m

instance (board : List (Option Player)) (l : Nat × Nat × Nat) :
    Decidable (LineFilledByOneMark board l) := by
  unfold LineFilledByOneMark; infer_instance

/-- The spec-side game-over condition: some line is filled by one mark, or
every cell of the board is occupied. -/
def GameOverSpec (board : List (Option Player)) : Prop :=
  (∃ l ∈ lines, LineFilledByOneMark board l) ∨ ∀ c ∈ board, c ≠ none

instance (board : List (Option Player)) : Decidable (GameOverSpec board) := by
  unfold GameOverSpec; infer_instance

/-- The invariant of the offline game state: the `gameOver` flag agrees with
the spec-side game-over condition on the board. -/
def Inv (gs : GameState) : Prop :=
  gs.gameOver = true ↔ GameOverSpec gs.board

/-- The board of the C9 scenario: `[X, X, null, O, O, null, null, null, null]`. -/
def scenarioBoard : List (Option Player) :=
  [some .X, some .X, none, some .O, some .O, none, none, none, none]

/-- The constant `SOCKET_URL` in `socketService.ts`: the primary candidate server. -/
def SOCKET_URL : String := "https://tic-tac-toe-server-production.up.railway.app"

/-- The constant `FALLBACK_URL` in `socketService.ts`: the fallback candidate server. -/
def FALLBACK_URL : String := "https://tictactoe-socket-server.onrender.com"

/-- Terminal outcome of one socket connection attempt, supplied by the
environment: the `connect` event fired, a `connect_error` event fired, or the
5-second guard timer fired with the socket still unconnected. -/
inductive Outcome where
  | connected : Outcome
  | connectError : Outcome
  | timeout : Outcome
deriving DecidableEq, Repr

/-- Result of calling the socket constructor `io(...)`: either it returns a
socket whose attempt ends in the given outcome, or it throws synchronously. -/
inductive IoInit where
  | ok : Outcome → IoInit
  | throws : IoInit
deriving DecidableEq, Repr

/-- How the promise returned by `connect` settles. -/
inductive ConnectResult where
  | resolved : Bool → ConnectResult
  | rejected : ConnectResult
deriving DecidableEq, Repr

/-- Returns `true` when the promise settled by resolving (with either value). -/
def ConnectResult.isResolved : ConnectResult → Bool
  | .resolved _ => true
  | .rejected => false

/-- Observable trace of one `connect` call: the candidate URLs attempted in
order, the promise settlement, whether `localStorage.setItem` ran for the
username, and the final value of the `reconnectAttempts` counter. -/
structure ConnectRun where
  attempts : List String
  result : ConnectResult
  storedName : Bool
  reconnectAttempts : Nat
deriving DecidableEq, Repr

/-- The function `connectToFallback`: increments `reconnectAttempts` and calls
`io(FALLBACK_URL, ...)`. A synchronous throw is caught and resolves `false`;
a `connect` event resolves `true` and resets the counter; a `connect_error`
event resolves `false`. The fallback socket has no manual guard timer, so the
internal 8-second library timeout also surfaces as a `connect_error` event.
Returns the URLs attempted here, the settlement, and the new counter. -/
def connectToFallback (ra : Nat) (fallback : IoInit) :
    List String × ConnectResult × Nat :=
  match fallback with
  | .throws => ([FALLBACK_URL], .resolved false, ra + 1)
  | .ok .connected => ([FALLBACK_URL], .resolved true, 0)
  | .ok .connectError => ([FALLBACK_URL], .resolved false, ra + 1)
  | .ok .timeout => ([FALLBACK_URL], .resolved false, ra + 1)

/-- The function `connect` in `socketService.ts`. It stores the username first in every
call; resolves `true` at once when an existing socket is already connected;
otherwise calls `io(SOCKET_URL, ...)` (a synchronous throw rejects the
promise). A `connect` event resolves `true` and resets `reconnectAttempts`;
the 5-second guard timeout moves on to `connectToFallback`; a `connect_error`
event moves on to `connectToFallback` only when `reconnectAttempts === 0` and
otherwise resolves `false` immediately. -/
def connect (alreadyConnected : Bool) (ra : Nat) (primary fallback : IoInit) :
    ConnectRun :=
  if alreadyConnected then ⟨[], .resolved true, true, ra⟩
  else
    match primary with
    | .throws => ⟨[SOCKET_URL], .rejected, true, ra⟩
    | .ok .connected => ⟨[SOCKET_URL], .resolved true, true, 0⟩
    | .ok .connectError =>
      if ra == 0 then
        let fb := connectToFallback ra fallback
        ⟨SOCKET_URL :: fb.1, fb.2.1, true, fb.2.2⟩
      else ⟨[SOCKET_URL], .resolved false, true, ra⟩
    | .ok .timeout =>
      let fb := connectToFallback ra fallback
      ⟨SOCKET_URL :: fb.1, fb.2.1, true, fb.2.2⟩

/-- The function `connectToServer` in `GameContext.tsx`: the `.then` branch returns the
success boolean unchanged and the `.catch` branch turns a rejection into
`false`. -/
def connectToServer (run : ConnectRun) : Bool :=
  match run.result with
  | .resolved b => b
  | .rejected => false

/-- Whether a socket attempt with this constructor result fires the `connect`
event. -/
def attemptConnects : IoInit → Bool
  | .ok .connected => true
  | _ => false

/-- Modelled from the words of the claim ("resolves to true on successful
connection"): a connection was established during the call — the service was
already connected, or a candidate server that was attempted during the run
fired its `connect` event. -/
def connectionEstablished (alreadyConnected : Bool) (run : ConnectRun)
    (primary fallback : IoInit) : Bool :=
  alreadyConnected
    || (run.attempts.contains SOCKET_URL && attemptConnects primary)
    || (run.attempts.contains FALLBACK_URL && attemptConnects fallback)

/-- Effect of one socket-service action method call: the socket events
emitted, and — for the promise-returning methods — the rejection reason when
the returned promise is rejected. -/
structure ServiceEffect where
  emitted : List String
  rejection : Option String
deriving DecidableEq, Repr

/-- Method `createRoom` in `socketService.ts`: without a socket it returns
`Promise.reject("Not connected")`; with one it emits `create_room` and
resolves with the server response. -/
def createRoomSvc (hasSocket : Bool) (roomName : String) (isPrivate : Bool) :
    ServiceEffect :=
  if hasSocket then ⟨["create_room"], none⟩ else ⟨[], some "Not connected"⟩

/-- Method `joinRoom` in `socketService.ts`: without a socket it returns
`Promise.reject("Not connected")`; with one it emits `join_room` and resolves
on a success response, rejecting with the error sent by the server otherwise. -/
def joinRoomSvc (hasSocket : Bool) (roomId : String)
    (response : Except String Unit) : ServiceEffect :=
  if hasSocket then
    match response with
    | .ok _ => ⟨["join_room"], none⟩
    | .error e => ⟨["join_room"], some e⟩
  else ⟨[], some "Not connected"⟩

/-- Method `joinRandomGame` in `socketService.ts`: rejects with `"Not connected"`
without a socket, else emits `join_random`. -/
def joinRandomGameSvc (hasSocket : Bool) : ServiceEffect :=
  if hasSocket then ⟨["join_random"], none⟩ else ⟨[], some "Not connected"⟩

/-- Method `leaveRoom` in `socketService.ts`: a plain early return without a socket,
else emits `leave_room`. -/
def leaveRoomSvc (hasSocket : Bool) : ServiceEffect :=
  if hasSocket then ⟨["leave_room"], none⟩ else ⟨[], none⟩

/-- Method `makeMove` in `socketService.ts`: a plain early return without a socket,
else emits `move`. -/
def makeMoveSvc (hasSocket : Bool) (index : Nat) : ServiceEffect :=
  if hasSocket then ⟨["move"], none⟩ else ⟨[], none⟩

/-- Method `restartGame` in `socketService.ts`: a plain early return without a
socket, else emits `restart_game`. -/
def restartGameSvc (hasSocket : Bool) : ServiceEffect :=
  if hasSocket then ⟨["restart_game"], none⟩ else ⟨[], none⟩

/-- Method `sendMessage` in `socketService.ts`: a plain early return when there is no
socket or no username, else emits `send_message`. -/
def sendMessageSvc (hasSocket : Bool) (username : Option String)
    (message : String) : ServiceEffect :=
  if hasSocket && username.isSome then ⟨["send_message"], none⟩ else ⟨[], none⟩

/-- The `Room` interface of `socketService.ts`. -/
structure Room where
  id : String
  name : String
  players : List String
  spectators : Nat
  isPrivate : Bool
deriving DecidableEq, Repr

/-- The `Message` interface of `socketService.ts`. -/
structure Message where
  id : String
  sender : String
  text : String
  timestamp : Nat
deriving DecidableEq, Repr

/-- The React state owned by `GameProvider` in `GameContext.tsx`. -/
structure ContextState where
  username : Option String
  gameState : Option GameState
  rooms : List Room
  messages : List Message
  currentRoom : Option String
  isOfflineMode : Bool
deriving DecidableEq, Repr

/-- The private state of the `SocketService` singleton: whether a socket
object exists (and its connected flag), the stored username, and the
reconnect counter. -/
structure ServiceState where
  socket : Option Bool
  username : Option String
  reconnectAttempts : Nat
deriving DecidableEq, Repr

/-- The browser local storage as used by the app: the single
`"tictactoe_username"` key. -/
structure Storage where
  username : Option String
deriving DecidableEq, Repr

/-- Method `disconnect` of the socket service: only when a socket exists,
disconnect it and clear the socket and username fields of the service. -/
def serviceDisconnect (s : ServiceState) : ServiceState :=
  if s.socket.isSome then { s with socket := none, username := none } else s

/-- The function `disconnectFromServer` in `GameContext.tsx`: disconnect the service and
reset every piece of context state (game state, current room, room list,
message log, username, offline flag). -/
def disconnectFromServer (c : ContextState) (svc : ServiceState) :
    ContextState × ServiceState :=
  ({ c with
      username := none
      gameState := none
      rooms := []
      messages := []
      currentRoom := none
      isOfflineMode := false },
    serviceDisconnect svc)

/-- The handler `handleLogout` in `Index.tsx`: `disconnectFromServer()` followed by
`localStorage.removeItem("tictactoe_username")`. -/
def handleLogout (c : ContextState) (svc : ServiceState) (st : Storage) :
    ContextState × ServiceState × Storage :=
  ((disconnectFromServer c svc).1, (disconnectFromServer c svc).2,
    { st with username := none })

/-- The list `demoRooms` from `GameContext.tsx`, installed when offline mode starts. -/
def demoRooms : List Room :=
  [⟨"demo-room-1", "Public Game Room", ["Player1"], 0, false⟩,
   ⟨"demo-room-2", "Quick Match", ["Player2", "Player3"], 1, false⟩]

/-- The offline branch of `joinRoom` in `GameContext.tsx`: look the room up by
id (reject `"Room not found"` when absent, `"Room is full"` at two or more
occupants), else append the caller to the occupants of the room, enter it,
seed a fresh game state with the first occupant of the room as X and the caller as
O, and replace the message log with the welcome message. The generated
message id and clock reading are passed in. -/
def joinRoomOffline (c : ContextState) (id : String) (msgId : String)
    (now : Nat) : ContextState × Except String Unit :=
  match c.rooms.find? (fun r => r.id == id) with
  | none => (c, .error "Room not found")
  | some roomToJoin =>
    if 2 ≤ roomToJoin.players.length then (c, .error "Room is full")
    else
      ({ c with
          rooms := c.rooms.map (fun r =>
            if r.id == id then
              { r with players := r.players ++ [c.username.getD "You"] }
            else r)
          currentRoom := some id
          gameState := some { initialGameState with
            players := ⟨roomToJoin.players.get? 0, c.username⟩ }
          messages := [⟨msgId, "System", "Welcome to the game room!", now⟩] },
        .ok ())

/-- The offline branch of `restartGame` in `GameContext.tsx`: replace the game
state with the initial one, keeping the current players (or seeding X with the
username when no game state exists), and append a system message. -/
def restartGameOffline (c : ContextState) (msgId : String) (now : Nat) :
    ContextState :=
  { c with
    gameState := some { initialGameState with
      players := match c.gameState with
        | some g => g.players
        | none => ⟨c.username, none⟩ }
    messages := c.messages ++ [⟨msgId, "System", "Game has been restarted.", now⟩] }

/-- A concrete offline context used by witnesses: logged in as Alice with the
demo room list. -/
def offlineCtx : ContextState :=
  ⟨some "Alice", none, demoRooms, [], none, true⟩

/-- A concrete offline context with a game in progress, used by witnesses. -/
def inGameCtx : ContextState :=
  ⟨some "Alice",
    some { initialGameState with
      board := scenarioBoard
      players := ⟨some "Alice", some "Bob"⟩ },
    demoRooms, [], some "demo-room-1", true⟩

/-- The loop test of `checkWinner` holds exactly when the line is fully
occupied by a single mark. -/
lemma lineWin_iff (b : List (Option Player)) (l : Nat × Nat × Nat) :
    lineWin b l = true ↔ LineFilledByOneMark b l := by
  unfold lineWin LineFilledByOneMark
  cases h : cellAt b l.1 with
  | none => simp [h]
  | some m =>
    simp only [Bool.and_eq_true, beq_iff_eq]
    constructor
    · rintro ⟨h1, h2⟩; exact ⟨m, rfl, h1, h2⟩
    · rintro ⟨m', h0, h1, h2⟩
      cases h0; exact ⟨h1, h2⟩

/-- The function `checkWinner` returns a line exactly when one of the eight lines is fully
occupied by a single mark. -/
lemma checkWinner_isSome_iff (b : List (Option Player)) :
    (checkWinner b).isSome = true ↔ ∃ l ∈ lines, LineFilledByOneMark b l := by
  unfold checkWinner
  cases h : lines.find? (lineWin b) with
  | none =>
    simp only [Option.isSome_none, Bool.false_eq_true, false_iff]
    rintro ⟨l, hmem, hfill⟩
    exact absurd ((lineWin_iff b l).mpr hfill) (by simpa using List.find?_eq_none.mp h l hmem)
  | some t =>
    obtain ⟨a, bi, c⟩ := t
    simp only [Option.isSome_some, true_iff]
    exact ⟨(a, bi, c), List.mem_of_find?_eq_some h,
      (lineWin_iff b _).mp (List.find?_some h)⟩

/-- The draw test `newBoard.every(cell => cell !== null)` holds exactly when
every cell is occupied. -/
lemma all_isSome_iff (b : List (Option Player)) :
    b.all Option.isSome = true ↔ ∀ c ∈ b, c ≠ none := by
  simp [List.all_eq_true, Option.isSome_iff_ne_none]

/-- The function `makeMove` preserves the invariant: a rejected move changes nothing, and an
accepted move recomputes `gameOver` from `checkWinner` and the draw test. -/
lemma inv_makeMove (gs : GameState) (i : Nat) (h : Inv gs) : Inv (makeMove gs i) := by
  unfold makeMove
  split
  · exact h
  · unfold Inv GameOverSpec
    simp only [Bool.or_eq_true, Bool.and_eq_true, Option.isNone_iff_eq_none]
    constructor
    · rintro (hw | ⟨-, hfull⟩)
      · exact Or.inl ((checkWinner_isSome_iff _).mp hw)
      · exact Or.inr ((all_isSome_iff _).mp hfull)
    · rintro (hline | hfull)
      · exact Or.inl ((checkWinner_isSome_iff _).mpr hline)
      · by_cases hw : (checkWinner (gs.board.set i (some gs.currentTurn))).isSome = true
        · exact Or.inl hw
        · exact Or.inr ⟨Option.not_isSome_iff_eq_none.mp hw, (all_isSome_iff _).mpr hfull⟩

/-- The invariant is preserved along any sequence of offline moves. -/
lemma applyMoves_inv (ms : List (Fin 9)) (gs : GameState) (h : Inv gs) :
    Inv (applyMoves gs ms) := by
  induction ms generalizing gs with
  | nil => exact h
  | cons i ms ih => exact ih (makeMove gs i.val) (inv_makeMove gs i.val h)

/-- The initial game state (with any player slots) satisfies the invariant. -/
lemma inv_initial (ps : Players) : Inv { initialGameState with players := ps } := by
  unfold Inv
  show false = true ↔ GameOverSpec (List.replicate 9 none)
  simp only [Bool.false_eq_true, false_iff]
  decide

/-- C1: in offline mode, after any sequence of moves applied via `makeMove`
from the initial game state, `gameOver` is true iff one of the eight fixed
lines is fully occupied by one mark or all nine cells are occupied. -/
theorem offline_gameOver_iff_line_or_full (ps : Players) (ms : List (Fin 9)) :
    (applyMoves { initialGameState with players := ps } ms).gameOver = true ↔
      GameOverSpec (applyMoves { initialGameState with players := ps } ms).board :=
  applyMoves_inv ms _ (inv_initial ps)

/-- C2: in offline mode, a move onto an occupied cell or after the game is
over leaves the entire game state unchanged. -/
theorem makeMove_invalid_unchanged (gs : GameState) (i : Nat)
    (h : (cellAt gs.board i).isSome = true ∨ gs.gameOver = true) :
    makeMove gs i = gs := by
  unfold makeMove
  rcases h with h | h <;> simp [h]

/-- Witness for C2: on a finished game, `makeMove 0` returns the state
unchanged. -/
theorem makeMove_invalid_unchanged_witness :
    makeMove { initialGameState with gameOver := true } 0
      = { initialGameState with gameOver := true } :=
  makeMove_invalid_unchanged { initialGameState with gameOver := true } 0 (Or.inr rfl)

/-- C9: from board `[X,X,null,O,O,null,null,null,null]` with X to move,
`makeMove 2` yields winner = the display name of player X, winning combination
`[0,1,2]`, and `gameOver` true. -/
theorem scenario_x_wins_top_row (ps : Players) :
    (makeMove { initialGameState with board := scenarioBoard, players := ps } 2).winner
        = ps.X ∧
      (makeMove { initialGameState with board := scenarioBoard, players := ps } 2).winningCombination
        = some [0, 1, 2] ∧
      (makeMove { initialGameState with board := scenarioBoard, players := ps } 2).gameOver
        = true :=
  ⟨rfl, rfl, rfl⟩

/-- C3 counterexample: a first fully failed cycle leaves the reconnect counter
at 1; a second `connect` call whose primary attempt raises `connect_error`
then resolves as failed having attempted only the primary server, even though
the fallback would have connected. -/
theorem connect_fail_skips_fallback :
    (connect false 0 (IoInit.ok .timeout) (IoInit.ok .connectError)).result
        = ConnectResult.resolved false ∧
      (connect false 0 (IoInit.ok .timeout) (IoInit.ok .connectError)).reconnectAttempts = 1 ∧
      (connect false 1 (IoInit.ok .connectError) (IoInit.ok .connected)).result
        = ConnectResult.resolved false ∧
      (connect false 1 (IoInit.ok .connectError) (IoInit.ok .connected)).attempts
        = [SOCKET_URL] :=
  ⟨rfl, rfl, rfl, rfl⟩

/-- C3 amended: on a `connect` call with the reconnect counter at 0 (its
initial value), the attempts are a prefix of the declared candidate order,
the fallback is attempted only after a `connect_error` or timeout of the
primary, and a failed resolution happens only after both candidates were
attempted. (When the counter is nonzero — left over from a previous fully
failed cycle — a primary `connect_error` resolves as failed at once.) -/
theorem connect_failover_order (p f : IoInit) :
    ((connect false 0 p f).attempts = [SOCKET_URL] ∨
      (connect false 0 p f).attempts = [SOCKET_URL, FALLBACK_URL]) ∧
    (FALLBACK_URL ∈ (connect false 0 p f).attempts →
      p = IoInit.ok .connectError ∨ p = IoInit.ok .timeout) ∧
    ((connect false 0 p f).result = ConnectResult.resolved false →
      (connect false 0 p f).attempts = [SOCKET_URL, FALLBACK_URL]) := by
  rcases p with po | _ <;> rcases f with fo | _ <;>
    first
      | (cases po <;> cases fo <;> decide)
      | (cases po <;> decide)
      | (cases fo <;> decide)
      | decide

/-- Witness for C3 (amended): with a primary timeout and a fallback error,
the fallback really was attempted, after the primary and because of the
timeout; the run resolved as failed with both candidates attempted. -/
theorem connect_failover_order_witness :
    (IoInit.ok .timeout = IoInit.ok .connectError ∨
        IoInit.ok .timeout = IoInit.ok Outcome.timeout) ∧
      (connect false 0 (IoInit.ok .timeout) (IoInit.ok .connectError)).attempts
        = [SOCKET_URL, FALLBACK_URL] :=
  ⟨(connect_failover_order (IoInit.ok .timeout) (IoInit.ok .connectError)).2.1
      (by decide),
    (connect_failover_order (IoInit.ok .timeout) (IoInit.ok .connectError)).2.2
      (by decide)⟩

/-- C4 counterexample: when the socket constructor throws synchronously, the
`catch` block of `connect` rejects the promise. -/
theorem connect_rejects_on_throw :
    (connect false 0 IoInit.throws (IoInit.ok .connected)).result
      = ConnectResult.rejected := rfl

/-- C4 amended: whenever socket initialization does not throw, the promise of
`connect` settles by resolving, and its value is `true` exactly when a
connection was established (the service was already connected, or an attempted
candidate fired `connect`) — hence `false` whenever all connection attempts
failed. When initialization does throw, the promise is rejected, and
`connectToServer` catches the rejection and returns `false`, so the
caller-facing promise never rejects. -/
theorem connect_resolution_value (ac : Bool) (ra : Nat) (o : Outcome)
    (f : IoInit) :
    (connect ac ra (IoInit.ok o) f).result
        = ConnectResult.resolved
          (connectionEstablished ac (connect ac ra (IoInit.ok o) f)
            (IoInit.ok o) f) ∧
      (connect false ra IoInit.throws f).result = ConnectResult.rejected ∧
      connectToServer (connect false ra IoInit.throws f) = false := by
  refine ⟨?_, rfl, rfl⟩
  cases ac with
  | true => rfl
  | false =>
    cases o with
    | connected => rfl
    | connectError =>
      by_cases hra : ra = 0
      · subst hra
        rcases f with fo | _
        · cases fo <;> rfl
        · rfl
      · have hb : (ra == 0) = false := by simpa using hra
        simp only [connect, hb, Bool.false_eq_true, if_false]
        rfl
    | timeout =>
      rcases f with fo | _
      · cases fo <;> rfl
      · rfl

/-- C5 counterexample: with no socket, the three promise-returning room
methods reject with `"Not connected"` rather than being silent no-ops. -/
theorem noSocket_methods_reject :
    (createRoomSvc false "Test" false).rejection = some "Not connected" ∧
      (joinRoomSvc false "demo-room-1" (Except.ok ())).rejection
        = some "Not connected" ∧
      (joinRandomGameSvc false).rejection = some "Not connected" :=
  ⟨rfl, rfl, rfl⟩

/-- C5 amended: with no socket, every action method emits nothing;
`leaveRoom`, `makeMove`, `restartGame` and `sendMessage` return silently,
while `createRoom`, `joinRoom` and `joinRandomGame` return a promise rejected
with `"Not connected"`. -/
theorem noSocket_methods_behavior (roomName : String) (isPrivate : Bool)
    (roomId : String) (response : Except String Unit) (index : Nat)
    (username : Option String) (message : String) :
    createRoomSvc false roomName isPrivate = ⟨[], some "Not connected"⟩ ∧
      joinRoomSvc false roomId response = ⟨[], some "Not connected"⟩ ∧
      joinRandomGameSvc false = ⟨[], some "Not connected"⟩ ∧
      leaveRoomSvc false = ⟨[], none⟩ ∧
      makeMoveSvc false index = ⟨[], none⟩ ∧
      restartGameSvc false = ⟨[], none⟩ ∧
      sendMessageSvc false username message = ⟨[], none⟩ :=
  ⟨rfl, rfl, rfl, rfl, rfl, rfl, rfl⟩

/-- C6 counterexample: a `connect` call whose every attempt fails still ran
`localStorage.setItem` for the display name. -/
theorem connect_stores_despite_failure :
    (connect false 0 (IoInit.ok .connectError) (IoInit.ok .connectError)).result
        = ConnectResult.resolved false ∧
      (connect false 0 (IoInit.ok .connectError) (IoInit.ok .connectError)).storedName
        = true :=
  ⟨rfl, rfl⟩

/-- C6 amended: the display name is persisted to local storage at the start
of every `connect` call, unconditionally — before any connection attempt and
regardless of the outcome. -/
theorem connect_always_stores (ac : Bool) (ra : Nat) (p f : IoInit) :
    (connect ac ra p f).storedName = true := by
  cases ac with
  | true => rfl
  | false =>
    rcases p with po | _
    · cases po with
      | connected => rfl
      | connectError =>
        by_cases hra : ra = 0
        · subst hra
          rcases f with fo | _
          · cases fo <;> rfl
          · rfl
        · have hb : (ra == 0) = false := by simpa using hra
          simp only [connect, hb, Bool.false_eq_true, if_false]
      | timeout =>
        rcases f with fo | _
        · cases fo <;> rfl
        · rfl
    · rfl

/-- C7: logging out clears the persisted display name and resets the session:
username `null`, no current room, and game state, room list and message log
empty. -/
theorem handleLogout_clears (c : ContextState) (svc : ServiceState)
    (st : Storage) :
    (handleLogout c svc st).1.username = none ∧
      (handleLogout c svc st).1.currentRoom = none ∧
      (handleLogout c svc st).1.gameState = none ∧
      (handleLogout c svc st).1.rooms = [] ∧
      (handleLogout c svc st).1.messages = [] ∧
      (handleLogout c svc st).2.2.username = none :=
  ⟨rfl, rfl, rfl, rfl, rfl, rfl⟩

/-- C8: in offline mode, joining an absent room id rejects with
`"Room not found"` and joining a room that already has two occupants rejects
with `"Room is full"`; in both cases the context state — the room list
included — is returned unchanged. -/
theorem joinRoomOffline_rejects (c : ContextState) (id msgId : String)
    (now : Nat) :
    (c.rooms.find? (fun r => r.id == id) = none →
      joinRoomOffline c id msgId now = (c, Except.error "Room not found")) ∧
    ∀ r, c.rooms.find? (fun r => r.id == id) = some r →
      2 ≤ r.players.length →
      joinRoomOffline c id msgId now = (c, Except.error "Room is full") := by
  constructor
  · intro h
    simp only [joinRoomOffline, h]
  · intro r h hfull
    simp only [joinRoomOffline, h]
    rw [if_pos hfull]

/-- Witness for C8: against the demo room list, joining a missing id is
rejected as not found and joining the two-occupant `demo-room-2` is rejected
as full, both leaving the state unchanged. -/
theorem joinRoomOffline_rejects_witness :
    joinRoomOffline offlineCtx "missing-room" "m1" 0
        = (offlineCtx, Except.error "Room not found") ∧
      joinRoomOffline offlineCtx "demo-room-2" "m1" 0
        = (offlineCtx, Except.error "Room is full") :=
  ⟨(joinRoomOffline_rejects offlineCtx "missing-room" "m1" 0).1 (by decide),
    (joinRoomOffline_rejects offlineCtx "demo-room-2" "m1" 0).2
      ⟨"demo-room-2", "Quick Match", ["Player2", "Player3"], 1, false⟩
      (by decide) (by decide)⟩

/-- C10: in offline mode, when a game state exists, `restartGame` resets the
board to nine empty cells, the turn to X, `gameOver` to false and the winner
fields to `null`, while keeping the players mapping unchanged. -/
theorem restartGameOffline_resets (c : ContextState) (g : GameState)
    (msgId : String) (now : Nat) (h : c.gameState = some g) :
    (restartGameOffline c msgId now).gameState
      = some ⟨List.replicate 9 none, Player.X, false, none, none, g.players⟩ := by
  simp only [restartGameOffline, h]
  rfl

/-- Witness for C10: restarting the in-progress Alice/Bob game resets the
board and flags and keeps the two players. -/
theorem restartGameOffline_resets_witness :
    (restartGameOffline inGameCtx "m2" 5).gameState
      = some ⟨List.replicate 9 none, Player.X, false, none, none,
          ⟨some "Alice", some "Bob"⟩⟩ :=
  restartGameOffline_resets inGameCtx
    { initialGameState with
        board := scenarioBoard
        players := ⟨some "Alice", some "Bob"⟩ }
    "m2" 5 rfl

end TicTacToe
